import Mathlib

/-!
Verification of the instant-notification backend (Go + SQLite + SSE).

The definitions below are a shallow embedding of the Go source
(`src/unnamed/part_000`, the current `main.go` of the backend):

* the in-process SSE `broadcaster` goroutine (lines 81-115): the subscriber
  set `b.conns` (a Go map from channel to `struct{}`) together with the
  per-subscriber buffered channels, and its three select cases
  `add` / `remove` / `send`;
* the HTTP handlers: `POST /api/submit-form` (lines 146-186),
  `GET /api/submit-form` and `GET /api/leads` limit handling
  (lines 189-196 and 299-306), and
  `POST /api/submissions/:id/latency` (lines 360-401).

Go `int64` values are modelled as `Int`; Go buffered channels as a list of
buffered messages plus a capacity; `sql.NullInt64` columns as `Option Int`.
Fallible external effects (the SQLite `db.Exec` calls whose error the code
checks) are modelled by an explicit success flag passed to the handler.
-/

/-- A Go buffered channel `chan string`, as seen by the broadcaster:
its buffered contents (FIFO, oldest first), its capacity
(`make(chan string, 10)` in the stream handler), and whether `close`
has been called on it. -/
structure SseChan where
  buf : List String
  cap : Nat
  isClosed : Bool
  deriving Repr, DecidableEq

/-- State owned by the broadcaster goroutine: `members` is the key set of
the Go map `b.conns` (each subscriber channel is a key; handles are
naturals standing for channel identities), and `chans` records the state
of every channel ever registered, keyed by handle. -/
structure BusState where
  members : List Nat
  chans : List (Nat × SseChan)
  deriving Repr, DecidableEq

/-- The bus at program start: `conns: make(map[chan string]struct{})`. -/
def emptyBus : BusState := { members := [], chans := [] }

/-- Look a channel up by handle (first match). -/
def lookupChan : List (Nat × SseChan) → Nat → Option SseChan
  | [], _ => none
  | (k, c) :: rest, h => if k = h then some c else lookupChan rest h

/-- `case ch := <-b.add: b.conns[ch] = struct{}{}` — map-key insertion.
The handle names a freshly made channel (`make(chan string, 10)`), so a
channel not yet in the store is registered empty with the given capacity;
re-adding an existing key leaves the map, as a set of keys, unchanged. -/
def subscribeB (s : BusState) (h : Nat) (c : Nat) : BusState :=
  { members := if h ∈ s.members then s.members else h :: s.members,
    chans :=
      match lookupChan s.chans h with
      | some _ => s.chans
      | none => (h, { buf := [], cap := c, isClosed := false }) :: s.chans }

/-- `case ch := <-b.remove: if _, ok := b.conns[ch]; ok { delete(b.conns, ch); close(ch) }`
— remove the key if present and close that channel; otherwise do nothing. -/
def unsubscribeB (s : BusState) (h : Nat) : BusState :=
  if h ∈ s.members then
    { members := s.members.erase h,
      chans := s.chans.map (fun kc =>
        if kc.1 = h then (kc.1, { kc.2 with isClosed := true }) else kc) }
  else s

/-- The non-blocking send `select { case ch <- msg: default: }` applied to
one channel-store entry: a member channel with spare buffer space gets the
message appended; a full member channel, or a non-member channel, is left
alone. -/
def deliverOne (members : List Nat) (msg : String) (kc : Nat × SseChan) :
    Nat × SseChan :=
  if kc.1 ∈ members ∧ kc.2.buf.length < kc.2.cap then
    (kc.1, { kc.2 with buf := kc.2.buf ++ [msg] })
  else kc

/-- `case msg := <-b.send: for ch := range b.conns { select { case ch <- msg: default: } }`
— attempt a non-blocking enqueue on every current member. -/
def publishB (s : BusState) (msg : String) : BusState :=
  { s with chans := s.chans.map (deliverOne s.members msg) }

/-- One request to the broadcaster goroutine: its three select cases. -/
inductive BusOp where
  | sub (h : Nat) (c : Nat)
  | unsub (h : Nat)
  | pub (msg : String)
  deriving Repr, DecidableEq

/-- The broadcaster's loop body, one request at a time. -/
def busStep (s : BusState) : BusOp → BusState
  | .sub h c => subscribeB s h c
  | .unsub h => unsubscribeB s h
  | .pub msg => publishB s msg

/-- Serve a whole sequence of requests. -/
def busRun (s : BusState) : List BusOp → BusState
  | [] => s
  | op :: rest => busRun (busStep s op) rest

/-- Modelled from the spec (section 8, first testable property): the
subscriber set "implied by replaying subscribe/unsubscribe in order",
treating Subscribe as set-insertion and Unsubscribe as set-deletion and
ignoring Publish. Used only to compare against the bus's own bookkeeping. -/
def replaySubs (acc : List Nat) : List BusOp → List Nat
  | [] => acc
  | .sub h _ :: rest => replaySubs (if h ∈ acc then acc else h :: acc) rest
  | .unsub h :: rest => replaySubs (acc.erase h) rest
  | .pub _ :: rest => replaySubs acc rest

-- Helper lemmas about the bus

lemma subscribeB_members (s : BusState) (h c : Nat) :
    (subscribeB s h c).members = if h ∈ s.members then s.members else h :: s.members := rfl

lemma unsubscribeB_members (s : BusState) (h : Nat) :
    (unsubscribeB s h).members = s.members.erase h := by
  unfold unsubscribeB
  by_cases hm : h ∈ s.members
  · simp [hm]
  · simp [hm, List.erase_of_not_mem hm]

lemma publishB_members (s : BusState) (msg : String) :
    (publishB s msg).members = s.members := rfl

lemma busStep_members_nodup (s : BusState) (op : BusOp)
    (hs : s.members.Nodup) : (busStep s op).members.Nodup := by
  cases op with
  | sub h c =>
      simp only [busStep, subscribeB_members]
      by_cases hm : h ∈ s.members
      · simpa [hm] using hs
      · simpa [hm] using List.Nodup.cons hm hs
  | unsub h => simpa only [busStep, unsubscribeB_members] using hs.erase h
  | pub msg => simpa only [busStep, publishB_members] using hs

lemma busRun_members_replay (ops : List BusOp) :
    ∀ s : BusState, (busRun s ops).members = replaySubs s.members ops := by
  induction ops with
  | nil => intro s; rfl
  | cons op rest ih =>
      intro s
      cases op with
      | sub h c =>
          simp only [busRun, replaySubs, busStep]
          rw [ih, subscribeB_members]
      | unsub h =>
          simp only [busRun, replaySubs, busStep]
          rw [ih, unsubscribeB_members]
      | pub msg =>
          simp only [busRun, replaySubs, busStep]
          rw [ih, publishB_members]

lemma busRun_members_nodup (ops : List BusOp) :
    ∀ s : BusState, s.members.Nodup → (busRun s ops).members.Nodup := by
  induction ops with
  | nil => intro s hs; exact hs
  | cons op rest ih => intro s hs; exact ih _ (busStep_members_nodup s op hs)

lemma lookupChan_map_keyed (g : Nat → SseChan → SseChan) (h : Nat) :
    ∀ l : List (Nat × SseChan),
      lookupChan (l.map (fun kc => (kc.1, g kc.1 kc.2))) h =
        (lookupChan l h).map (g h) := by
  intro l
  induction l with
  | nil => rfl
  | cons kc rest ih =>
      obtain ⟨k, c⟩ := kc
      by_cases hk : k = h
      · subst hk; simp [lookupChan]
      · simp [lookupChan, hk, ih]

lemma deliverOne_eq (members : List Nat) (msg : String) (kc : Nat × SseChan) :
    deliverOne members msg kc =
      (kc.1, if kc.1 ∈ members ∧ kc.2.buf.length < kc.2.cap
             then { kc.2 with buf := kc.2.buf ++ [msg] } else kc.2) := by
  unfold deliverOne
  by_cases hc : kc.1 ∈ members ∧ kc.2.buf.length < kc.2.cap
  · simp [hc]
  · simp [hc]

lemma lookupChan_publishB (s : BusState) (msg : String) (h : Nat) :
    lookupChan (publishB s msg).chans h =
      (lookupChan s.chans h).map (fun c =>
        if h ∈ s.members ∧ c.buf.length < c.cap
        then { c with buf := c.buf ++ [msg] } else c) := by
  show lookupChan (s.chans.map (deliverOne s.members msg)) h = _
  rw [List.map_congr_left (fun kc _ => deliverOne_eq s.members msg kc)]
  exact lookupChan_map_keyed
    (fun k c => if k ∈ s.members ∧ c.buf.length < c.cap
                then { c with buf := c.buf ++ [msg] } else c) h s.chans

lemma publishB_empty (s : BusState) (msg : String) (hs : s.members = []) :
    publishB s msg = s := by
  show ({ s with chans := s.chans.map (deliverOne s.members msg) } : BusState) = s
  have hmap : ∀ kc ∈ s.chans, deliverOne s.members msg kc = kc := by
    intro kc _
    unfold deliverOne
    rw [hs]
    simp
  rw [List.map_congr_left hmap]
  simp

/-- **C1.** A Publish delivers the message to every currently-subscribed
handle whose bounded queue has spare capacity (appended in FIFO position);
for a subscriber whose queue is full the message is dropped for that
subscriber only, leaving its queue as it was; channels not in the
subscriber set are untouched; the subscriber set itself is unchanged; and
publishing with zero subscribers leaves the whole bus state exactly as it
was (a no-op, not an error). -/
theorem publish_nonblocking_per_subscriber (s : BusState) (msg : String) :
    (publishB s msg).members = s.members ∧
    (s.members = [] → publishB s msg = s) ∧
    (∀ h c, h ∈ s.members → lookupChan s.chans h = some c →
      (c.buf.length < c.cap →
        lookupChan (publishB s msg).chans h = some { c with buf := c.buf ++ [msg] }) ∧
      (¬ c.buf.length < c.cap →
        lookupChan (publishB s msg).chans h = some c)) ∧
    (∀ h, h ∉ s.members →
      lookupChan (publishB s msg).chans h = lookupChan s.chans h) := by
  refine ⟨rfl, publishB_empty s msg, ?_, ?_⟩
  · intro h c hm hl
    constructor
    · intro hcap
      rw [lookupChan_publishB, hl]
      simp [hm, hcap]
    · intro hcap
      rw [lookupChan_publishB, hl]
      simp [hcap]
  · intro h hm
    rw [lookupChan_publishB]
    cases hl : lookupChan s.chans h with
    | none => rfl
    | some c => simp [hm]

/-- A concrete bus for the C1 witness: subscribers 1 (queue full) and 2
(spare capacity), plus an unsubscribed channel 3. -/
def busW1 : BusState where
  members := [1, 2]
  chans := [(1, { buf := ["a"], cap := 1, isClosed := false }),
            (2, { buf := [], cap := 2, isClosed := false }),
            (3, { buf := [], cap := 2, isClosed := false })]

/-- Concrete run of `publish_nonblocking_per_subscriber`: subscriber 1 has
a full queue and keeps it unchanged, subscriber 2 has spare capacity and
receives the message, channel 3 is not subscribed and is untouched. -/
theorem publish_nonblocking_witness :
    lookupChan (publishB busW1 "m").chans 1 =
      some { buf := ["a"], cap := 1, isClosed := false } ∧
    lookupChan (publishB busW1 "m").chans 2 =
      some { buf := ["m"], cap := 2, isClosed := false } ∧
    lookupChan (publishB busW1 "m").chans 3 =
      some { buf := [], cap := 2, isClosed := false } := by
  refine ⟨?_, ?_, ?_⟩
  · exact ((publish_nonblocking_per_subscriber busW1 "m").2.2.1 1
      { buf := ["a"], cap := 1, isClosed := false } (by decide)
      (by decide)).2 (by decide)
  · exact ((publish_nonblocking_per_subscriber busW1 "m").2.2.1 2
      { buf := [], cap := 2, isClosed := false } (by decide)
      (by decide)).1 (by decide)
  · exact ((publish_nonblocking_per_subscriber busW1 "m").2.2.2 3
      (by decide)).trans (by decide)

/-- **C2.** For every finite sequence of Subscribe/Unsubscribe/Publish
requests served from the initially empty bus, the subscriber set equals the
set obtained by replaying only the Subscribes as insertions and the
Unsubscribes as deletions, in order; in particular Publish never changes the
set, and the set holds no duplicate entry. -/
theorem bus_subscriber_set_replay (ops : List BusOp) :
    (busRun emptyBus ops).members = replaySubs [] ops ∧
    (busRun emptyBus ops).members.Nodup ∧
    ∀ s : BusState, (publishB s "m").members = s.members ∧
      ∀ msg, (busStep s (.pub msg)).members = s.members := by
  refine ⟨busRun_members_replay ops emptyBus, busRun_members_nodup ops emptyBus (by simp [emptyBus]), ?_⟩
  intro s
  exact ⟨publishB_members s "m", fun msg => publishB_members s msg⟩

lemma unsubscribeB_eq_of_mem (s : BusState) (h : Nat) (hm : h ∈ s.members) :
    unsubscribeB s h =
      { members := s.members.erase h,
        chans := s.chans.map (fun kc =>
          if kc.1 = h then (kc.1, { kc.2 with isClosed := true }) else kc) } := by
  unfold unsubscribeB
  simp [hm]

lemma unsubscribeB_eq_of_not_mem (s : BusState) (h : Nat) (hm : h ∉ s.members) :
    unsubscribeB s h = s := by
  unfold unsubscribeB
  simp [hm]

lemma lookupChan_unsubscribeB (s : BusState) (h : Nat) (hm : h ∈ s.members) :
    lookupChan (unsubscribeB s h).chans h =
      (lookupChan s.chans h).map (fun c => { c with isClosed := true }) := by
  rw [unsubscribeB_eq_of_mem s h hm]
  have hmap : ∀ kc ∈ s.chans,
      (if kc.1 = h then (kc.1, { kc.2 with isClosed := true }) else kc) =
        (kc.1, if kc.1 = h then { kc.2 with isClosed := true } else kc.2) := by
    intro kc _
    by_cases hk : kc.1 = h
    · simp [hk]
    · simp [hk]
  show lookupChan (s.chans.map _) h = _
  rw [List.map_congr_left hmap]
  rw [lookupChan_map_keyed (fun k c => if k = h then { c with isClosed := true } else c) h s.chans]
  simp

/-- **C9.** Unsubscribe is idempotent: on a handle that is present it
removes the handle from the subscriber set and marks its channel closed;
on a handle that is absent (never subscribed, or already removed) it
leaves the whole bus state — subscriber set and every channel — exactly as
it was; and a second Unsubscribe of the same handle has no effect beyond
the first. -/
theorem unsubscribe_idempotent (s : BusState) (h : Nat)
    (hnd : s.members.Nodup) :
    (h ∉ s.members → unsubscribeB s h = s) ∧
    (h ∈ s.members →
      h ∉ (unsubscribeB s h).members ∧
      ∀ c, lookupChan s.chans h = some c →
        lookupChan (unsubscribeB s h).chans h = some { c with isClosed := true }) ∧
    unsubscribeB (unsubscribeB s h) h = unsubscribeB s h := by
  have hnotmem : h ∈ s.members → h ∉ (unsubscribeB s h).members := by
    intro hm hcontra
    rw [unsubscribeB_members] at hcontra
    exact (List.Nodup.mem_erase_iff hnd).mp hcontra |>.1 rfl
  refine ⟨unsubscribeB_eq_of_not_mem s h, ?_, ?_⟩
  · intro hm
    refine ⟨hnotmem hm, ?_⟩
    intro c hc
    rw [lookupChan_unsubscribeB s h hm, hc]
    rfl
  · by_cases hm : h ∈ s.members
    · exact unsubscribeB_eq_of_not_mem _ h (hnotmem hm)
    · rw [unsubscribeB_eq_of_not_mem s h hm]
      exact unsubscribeB_eq_of_not_mem s h hm

/-- A concrete bus for the C9 witness: subscribers 5 and 6. -/
def busW9 : BusState where
  members := [5, 6]
  chans := [(5, { buf := ["x"], cap := 10, isClosed := false }),
            (6, { buf := [], cap := 10, isClosed := false })]

/-- Concrete run of `unsubscribe_idempotent`: removing subscriber 5 takes
it out of the set and closes its channel, a second removal changes
nothing, and removing the never-subscribed handle 7 is a no-op. -/
theorem unsubscribe_idempotent_witness :
    5 ∉ (unsubscribeB busW9 5).members ∧
    lookupChan (unsubscribeB busW9 5).chans 5 =
      some { buf := ["x"], cap := 10, isClosed := true } ∧
    unsubscribeB (unsubscribeB busW9 5) 5 = unsubscribeB busW9 5 ∧
    unsubscribeB busW9 7 = busW9 := by
  refine ⟨?_, ?_, ?_, ?_⟩
  · exact (((unsubscribe_idempotent busW9 5 (by decide)).2.1 (by decide)).1)
  · exact ((unsubscribe_idempotent busW9 5 (by decide)).2.1 (by decide)).2
      { buf := ["x"], cap := 10, isClosed := false } (by decide)
  · exact (unsubscribe_idempotent busW9 5 (by decide)).2.2
  · exact (unsubscribe_idempotent busW9 7 (by decide)).1 (by decide)

/-! ## Storage and HTTP handlers (`src/unnamed/part_000`, lines 146-401)

A row of the `submissions` table. `sql.NullInt64` columns are `Option Int`;
the `timestamp DATETIME` column is kept as an opaque string, as the Go code
reads it (`Timestamp string`). -/

/-- One row of the SQLite `submissions` table. -/
structure Row where
  id : Int
  name : String
  email : String
  message : String
  timestamp : String
  clientSubmitAtMs : Option Int
  serverBroadcastAtMs : Option Int
  clientSubmitToServerMs : Option Int
  clientServerToDisplayMs : Option Int
  clientSubmitToDisplayMs : Option Int
  deriving Repr, DecidableEq

/-- The `submissions` table plus the AUTOINCREMENT counter: the next
insert receives identity `nextId` (`res.LastInsertId()`). -/
structure DB where
  rows : List Row
  nextId : Int
  deriving Repr, DecidableEq

/-- The JSON object of a submit request body: each key may be absent.
`none` for a key means the key is missing from the JSON. -/
structure RawSubmitBody where
  name : Option String
  email : Option String
  message : Option String
  clientSubmitAt : Option Int
  deriving Repr, DecidableEq

/-- The Go struct `Submission` after binding (name/email/message strings,
`ClientSubmitAt int64`). -/
structure Submission where
  name : String
  email : String
  message : String
  clientSubmitAt : Int
  deriving Repr, DecidableEq

/-- `c.ShouldBindJSON(&sub)` for the `Submission` struct. The struct
carries no binding tags, so binding fails only when the body is not a
well-formed JSON object of the right shape (modelled as `none`); keys
absent from a well-formed object decode to the Go zero values
(`""` for strings, `0` for `int64`). -/
def bindSubmission : Option RawSubmitBody → Except String Submission
  | none => .error "Invalid input"
  | some r => .ok { name := r.name.getD "", email := r.email.getD "",
                    message := r.message.getD "",
                    clientSubmitAt := r.clientSubmitAt.getD 0 }

/-- The anonymous struct marshalled at lines 168-182 and handed to
`b.send`: the wire payload of one broadcast. -/
structure BroadcastMsg where
  id : Int
  name : String
  email : String
  message : String
  clientSubmitAt : Int
  serverBroadcastAt : Int
  deriving Repr, DecidableEq

/-- HTTP outcome of a handler: 200, 400 (`gin.H{"error": ...}` with
`StatusBadRequest`) or 500 (`StatusInternalServerError`). -/
inductive HStatus where
  | ok
  | badRequest
  | internalError
  deriving Repr, DecidableEq

/-- What the submit handler sends back and hands to the bus: the HTTP
status, the `"id"` field of the 200 body, and the message given to
`b.send` (if any). -/
structure SubmitResult where
  status : HStatus
  respId : Option Int
  published : Option BroadcastMsg
  deriving Repr, DecidableEq

/-- `INSERT INTO submissions (name, email, message, client_submit_at_ms)
VALUES (?, ?, ?, ?)` — appends a row carrying the bound fields, with the
AUTOINCREMENT identity, and returns that identity (`LastInsertId`).
`ts` is the `CURRENT_TIMESTAMP` default of the `timestamp` column. -/
def insertedRow (db : DB) (sub : Submission) (ts : String) : Row where
  id := db.nextId
  name := sub.name
  email := sub.email
  message := sub.message
  timestamp := ts
  clientSubmitAtMs := some sub.clientSubmitAt
  serverBroadcastAtMs := none
  clientSubmitToServerMs := none
  clientServerToDisplayMs := none
  clientSubmitToDisplayMs := none

/-- The table and identity returned by the insert. -/
def insertSubmission (db : DB) (sub : Submission) (ts : String) : DB × Int :=
  ({ rows := db.rows ++ [insertedRow db sub ts], nextId := db.nextId + 1 },
   db.nextId)

/-- `UPDATE submissions SET server_broadcast_at_ms = ? WHERE id = ?`. -/
def stampBroadcastAt (db : DB) (id ms : Int) : DB :=
  { db with rows := db.rows.map (fun r =>
      if r.id = id then { r with serverBroadcastAtMs := some ms } else r) }

/-- `POST /api/submit-form` (lines 146-186): bind the body; on bind error
reply 400 and stop; insert (`insertOk` models whether `db.Exec` succeeds —
on failure reply 500 and stop, nothing published); read `LastInsertId`,
take `now = time.Now().UnixMilli()`, stamp `server_broadcast_at_ms`,
marshal the broadcast payload, hand it to `b.send`, reply 200 with the
identity. `payloadOf` is the marshalled payload of lines 168-182. -/
def payloadOf (id : Int) (sub : Submission) (now : Int) : BroadcastMsg where
  id := id
  name := sub.name
  email := sub.email
  message := sub.message
  clientSubmitAt := sub.clientSubmitAt
  serverBroadcastAt := now

/-- The handler itself (see the doc above `payloadOf`). -/
def submitFormHandler (db : DB) (body : Option RawSubmitBody) (now : Int)
    (ts : String) (insertOk : Bool) : DB × SubmitResult :=
  match bindSubmission body with
  | .error _ => (db, { status := .badRequest, respId := none, published := none })
  | .ok sub =>
    if insertOk then
      let ins := insertSubmission db sub ts
      let db2 := stampBroadcastAt ins.1 ins.2 now
      (db2, { status := .ok, respId := some ins.2,
              published := some (payloadOf ins.2 sub now) })
    else (db, { status := .internalError, respId := none, published := none })

-- Helper lemmas about the submit path

lemma submitFormHandler_ok (db : DB) (body : Option RawSubmitBody)
    (sub : Submission) (now : Int) (ts : String)
    (hb : bindSubmission body = .ok sub) :
    submitFormHandler db body now ts true =
      (stampBroadcastAt (insertSubmission db sub ts).1 db.nextId now,
       { status := .ok, respId := some db.nextId,
         published := some (payloadOf db.nextId sub now) }) := by
  unfold submitFormHandler
  rw [hb]
  rfl

lemma submitFormHandler_insert_fail (db : DB) (body : Option RawSubmitBody)
    (sub : Submission) (now : Int) (ts : String)
    (hb : bindSubmission body = .ok sub) :
    submitFormHandler db body now ts false =
      (db, { status := .internalError, respId := none, published := none }) := by
  unfold submitFormHandler
  rw [hb]
  rfl

lemma submitFormHandler_bind_fail (db : DB) (now : Int) (ts : String)
    (insOk : Bool) :
    submitFormHandler db none now ts insOk =
      (db, { status := .badRequest, respId := none, published := none }) := rfl

lemma stamped_inserted_mem (db : DB) (sub : Submission) (ts : String)
    (now : Int) :
    { insertedRow db sub ts with serverBroadcastAtMs := some now } ∈
      (stampBroadcastAt (insertSubmission db sub ts).1 db.nextId now).rows := by
  show _ ∈ ((db.rows ++ [insertedRow db sub ts]).map _)
  refine List.mem_map.mpr ⟨insertedRow db sub ts, ?_, ?_⟩
  · exact List.mem_append_right _ (List.mem_singleton.mpr rfl)
  · have hid : (insertedRow db sub ts).id = db.nextId := rfl
    simp [hid]

lemma stamp_rows_id_stamped (db0 : DB) (id now : Int) :
    ∀ r ∈ (stampBroadcastAt db0 id now).rows, r.id = id →
      r.serverBroadcastAtMs = some now := by
  intro r hr hid
  obtain ⟨r0, _, hmap⟩ := List.mem_map.mp hr
  by_cases h0 : r0.id = id
  · rw [← hmap]
    simp [h0]
  · exfalso
    apply h0
    rw [← hid, ← hmap]
    simp [h0]

/-- **C3.** On a successful submit: the handler's result is exactly
"stamp the broadcast timestamp onto the freshly inserted table, then
publish" — the final table is `stampBroadcastAt` applied to the table
produced by `insertSubmission` at the server-assigned identity
`db.nextId`; the 200 response carries that identity; the published
message carries that identity, the submitted fields, the echoed
client-submit timestamp and the broadcast timestamp; and the stored
record carries the stamp at the moment the message is handed over. -/
theorem submit_success_pipeline (db : DB) (body : Option RawSubmitBody)
    (sub : Submission) (now : Int) (ts : String)
    (hb : bindSubmission body = .ok sub) :
    submitFormHandler db body now ts true =
      (stampBroadcastAt (insertSubmission db sub ts).1 db.nextId now,
       { status := .ok, respId := some db.nextId,
         published := some (payloadOf db.nextId sub now) }) ∧
    (∀ m : BroadcastMsg,
      (submitFormHandler db body now ts true).2.published = some m →
        m.id = db.nextId ∧ m.name = sub.name ∧ m.email = sub.email ∧
        m.message = sub.message ∧ m.clientSubmitAt = sub.clientSubmitAt ∧
        m.serverBroadcastAt = now) ∧
    { insertedRow db sub ts with serverBroadcastAtMs := some now } ∈
      (submitFormHandler db body now ts true).1.rows ∧
    (∀ r ∈ (submitFormHandler db body now ts true).1.rows,
      r.id = db.nextId → r.serverBroadcastAtMs = some now) := by
  have hmain := submitFormHandler_ok db body sub now ts hb
  refine ⟨hmain, ?_, ?_, ?_⟩
  · intro m hm
    rw [hmain] at hm
    obtain rfl : payloadOf db.nextId sub now = m := Option.some.inj hm
    exact ⟨rfl, rfl, rfl, rfl, rfl, rfl⟩
  · rw [hmain]
    exact stamped_inserted_mem db sub ts now
  · rw [hmain]
    exact stamp_rows_id_stamped _ db.nextId now

/-- Concrete data for the C3 witness (the scenario of spec section 8). -/
def dbW3 : DB := { rows := [], nextId := 1 }

/-- The scenario's request body. -/
def bodyW3 : RawSubmitBody where
  name := some "A"
  email := some "a@x.com"
  message := some "hi"
  clientSubmitAt := some 1000

/-- Concrete run of `submit_success_pipeline` on the spec scenario:
identity 1 is assigned, the broadcast echoes clientSubmitAt = 1000 and
carries the broadcast timestamp. -/
theorem submit_success_pipeline_witness :
    (submitFormHandler dbW3 (some bodyW3) 2000 "t0" true).2.respId = some 1 ∧
    (submitFormHandler dbW3 (some bodyW3) 2000 "t0" true).2.published =
      some { id := 1, name := "A", email := "a@x.com", message := "hi",
             clientSubmitAt := 1000, serverBroadcastAt := 2000 } ∧
    ∀ r ∈ (submitFormHandler dbW3 (some bodyW3) 2000 "t0" true).1.rows,
      r.id = 1 → r.serverBroadcastAtMs = some 2000 := by
  have h := submit_success_pipeline dbW3 (some bodyW3)
    { name := "A", email := "a@x.com", message := "hi", clientSubmitAt := 1000 }
    2000 "t0" rfl
  refine ⟨?_, ?_, h.2.2.2⟩
  · rw [h.1]
    rfl
  · rw [h.1]
    rfl

/-- **C4.** If the storage insert fails, the submit handler replies 500,
leaves the table untouched and publishes nothing; and — for any insert
outcome — whenever the handler does hand a message to the bus, the
identity carried by that message is the identity of a row present in the
table the handler leaves behind (broadcast only after a committed
insert). -/
theorem insert_failure_prevents_broadcast (db : DB)
    (body : Option RawSubmitBody) (now : Int) (ts : String) :
    (∀ sub, bindSubmission body = .ok sub →
      submitFormHandler db body now ts false =
        (db, { status := .internalError, respId := none, published := none })) ∧
    (∀ insOk : Bool, ∀ m : BroadcastMsg,
      (submitFormHandler db body now ts insOk).2.published = some m →
        m.id ∈ (submitFormHandler db body now ts insOk).1.rows.map Row.id) := by
  constructor
  · exact fun sub hb => submitFormHandler_insert_fail db body sub now ts hb
  · intro insOk m hm
    cases hbind : bindSubmission body with
    | error e =>
        exfalso
        cases body with
        | none =>
            rw [submitFormHandler_bind_fail db now ts insOk] at hm
            exact Option.noConfusion hm
        | some raw => exact Except.noConfusion hbind
    | ok sub =>
        cases insOk with
        | false =>
            exfalso
            rw [submitFormHandler_insert_fail db body sub now ts hbind] at hm
            exact Option.noConfusion hm
        | true =>
            rw [submitFormHandler_ok db body sub now ts hbind] at hm ⊢
            obtain rfl : payloadOf db.nextId sub now = m := Option.some.inj hm
            refine List.mem_map.mpr
              ⟨{ insertedRow db sub ts with serverBroadcastAtMs := some now }, ?_, rfl⟩
            exact stamped_inserted_mem db sub ts now

/-- Concrete data for the C4 witness. -/
def dbW4 : DB := { rows := [], nextId := 7 }

/-- The C4 witness body. -/
def bodyW4 : RawSubmitBody where
  name := some "B"
  email := some "b@x.com"
  message := some "yo"
  clientSubmitAt := none

/-- Concrete run of `insert_failure_prevents_broadcast`: with the insert
failing, the reply is 500, the table is untouched and nothing is
published; with the insert succeeding, the published identity 7 is the
identity of a stored row. -/
theorem insert_failure_prevents_broadcast_witness :
    submitFormHandler dbW4 (some bodyW4) 3000 "t1" false =
      (dbW4, { status := .internalError, respId := none, published := none }) ∧
    (7 : Int) ∈ (submitFormHandler dbW4 (some bodyW4) 3000 "t1" true).1.rows.map Row.id := by
  constructor
  · exact (insert_failure_prevents_broadcast dbW4 (some bodyW4) 3000 "t1").1
      { name := "B", email := "b@x.com", message := "yo", clientSubmitAt := 0 } rfl
  · exact (insert_failure_prevents_broadcast dbW4 (some bodyW4) 3000 "t1").2
      true { id := 7, name := "B", email := "b@x.com", message := "yo",
             clientSubmitAt := 0, serverBroadcastAt := 3000 } rfl

/-- Table for the C8 counterexample. -/
def dbW8 : DB := { rows := [], nextId := 1 }

/-- A submit body whose required `name` key is missing. -/
def bodyW8 : RawSubmitBody where
  name := none
  email := some "a@x.com"
  message := some "hi"
  clientSubmitAt := none

/-- **C8 counterexample.** A submit request missing the required `name`
field is NOT rejected: the `Submission` struct carries no binding tags, so
the body binds with `name = ""`, the row is inserted, a message is
broadcast, and the reply is 200 — contradicting the claim that a missing
required field is a validation error with no storage or broadcast side
effect. -/
theorem submit_missing_required_accepted :
    (submitFormHandler dbW8 (some bodyW8) 2000 "t0" true).2.status = HStatus.ok ∧
    (submitFormHandler dbW8 (some bodyW8) 2000 "t0" true).1.rows.length = 1 ∧
    (submitFormHandler dbW8 (some bodyW8) 2000 "t0" true).2.published ≠ none ∧
    (submitFormHandler dbW8 (some bodyW8) 2000 "t0" true).1.rows.map Row.name = [""] := by
  refine ⟨rfl, rfl, ?_, rfl⟩
  intro hcontra
  exact Option.noConfusion hcontra

/-- **C8 amended.** Only a malformed request body (one `ShouldBindJSON`
cannot decode) is rejected as a validation error, with no storage insert
and no broadcast; a well-formed body merely missing name, email or
message binds those fields to empty values and is processed normally
(status 200 when the insert succeeds). -/
theorem submit_validation_malformed_only (db : DB) (now : Int) (ts : String)
    (insOk : Bool) :
    submitFormHandler db none now ts insOk =
      (db, { status := .badRequest, respId := none, published := none }) ∧
    ∀ raw : RawSubmitBody,
      (submitFormHandler db (some raw) now ts true).2.status = .ok := by
  refine ⟨submitFormHandler_bind_fail db now ts insOk, ?_⟩
  intro raw
  rw [submitFormHandler_ok db (some raw) _ now ts rfl]

/-! ## Latency recorder (`POST /api/submissions/:id/latency`, lines 360-401) -/

/-- The JSON body of a latency update: three optional `*int64` fields. -/
structure LatencyBody where
  submitToServerMs : Option Int
  serverToDisplayMs : Option Int
  submitToDisplayMs : Option Int
  deriving Repr, DecidableEq

/-- The effect of the built `UPDATE submissions SET ... WHERE id = ?` on
one row that matches the id: each supplied field overwrites its column,
each absent field leaves its column alone. -/
def applyLatency (b : LatencyBody) (r : Row) : Row :=
  { r with
    clientSubmitToServerMs :=
      match b.submitToServerMs with
      | some v => some v
      | none => r.clientSubmitToServerMs,
    clientServerToDisplayMs :=
      match b.serverToDisplayMs with
      | some v => some v
      | none => r.clientServerToDisplayMs,
    clientSubmitToDisplayMs :=
      match b.submitToDisplayMs with
      | some v => some v
      | none => r.clientSubmitToDisplayMs }

/-- Does the body supply no field at all? (`len(sets) == 0`.) -/
def emptyLatencyBody (b : LatencyBody) : Prop :=
  b.submitToServerMs = none ∧ b.serverToDisplayMs = none ∧
    b.submitToDisplayMs = none

instance (b : LatencyBody) : Decidable (emptyLatencyBody b) := by
  unfold emptyLatencyBody
  infer_instance

/-- `POST /api/submissions/:id/latency`: parse the `:id` path parameter
(`idOpt = none` models `strconv.ParseInt` failing); reject a parse
failure or a non-positive id with 400; bind the body (`none` models a
malformed body), rejecting with 400; reject an all-absent body with 400
(`"no fields to update"`); otherwise run the UPDATE (`execOk` models
whether `db.Exec` succeeds — 500 on failure) and reply 200. -/
def latencyHandler (db : DB) (idOpt : Option Int) (body : Option LatencyBody)
    (execOk : Bool) : DB × HStatus :=
  match idOpt with
  | none => (db, .badRequest)
  | some id =>
    if id ≤ 0 then (db, .badRequest)
    else
      match body with
      | none => (db, .badRequest)
      | some b =>
        if emptyLatencyBody b then (db, .badRequest)
        else if execOk then
          ({ db with rows := db.rows.map (fun r =>
              if r.id = id then applyLatency b r else r) }, .ok)
        else (db, .internalError)

lemma latencyHandler_good (db : DB) (id : Int) (b : LatencyBody)
    (hid : 0 < id) (hne : ¬ emptyLatencyBody b) :
    latencyHandler db (some id) (some b) true =
      ({ db with rows := db.rows.map (fun r =>
          if r.id = id then applyLatency b r else r) }, .ok) := by
  simp [latencyHandler, hne, show ¬ id ≤ 0 by omega]

/-- **C5.** A latency update whose id fails to parse, or is non-positive,
or whose body is malformed, or supplies none of the three fields, is
rejected with 400 and the table is left untouched; a valid request
persists exactly the supplied subset onto the matching row (the built
`UPDATE` applied row-wise). -/
theorem latency_validation (db : DB) (idOpt : Option Int)
    (body : Option LatencyBody) (execOk : Bool) :
    (idOpt = none → latencyHandler db idOpt body execOk = (db, .badRequest)) ∧
    (∀ id, idOpt = some id → id ≤ 0 →
      latencyHandler db idOpt body execOk = (db, .badRequest)) ∧
    (∀ id, idOpt = some id → 0 < id → body = none →
      latencyHandler db idOpt body execOk = (db, .badRequest)) ∧
    (∀ id b, idOpt = some id → 0 < id → body = some b → emptyLatencyBody b →
      latencyHandler db idOpt body execOk = (db, .badRequest)) ∧
    (∀ id b, idOpt = some id → 0 < id → body = some b → ¬ emptyLatencyBody b →
      latencyHandler db idOpt body true =
        ({ db with rows := db.rows.map (fun r =>
            if r.id = id then applyLatency b r else r) }, .ok)) := by
  refine ⟨?_, ?_, ?_, ?_, ?_⟩
  · intro h
    subst h
    rfl
  · intro id h hle
    subst h
    simp [latencyHandler, hle]
  · intro id h hpos hb
    subst h
    subst hb
    simp [latencyHandler, show ¬ id ≤ 0 by omega]
  · intro id b h hpos hb hempty
    subst h
    subst hb
    simp [latencyHandler, hempty, show ¬ id ≤ 0 by omega]
  · intro id b h hpos hb hne
    subst h
    subst hb
    exact latencyHandler_good db id b hpos hne

/-- A stored row used by the latency witnesses. -/
def rowW : Row where
  id := 1
  name := "A"
  email := "a@x.com"
  message := "hi"
  timestamp := "t0"
  clientSubmitAtMs := some 1000
  serverBroadcastAtMs := some 2000
  clientSubmitToServerMs := none
  clientServerToDisplayMs := some 5
  clientSubmitToDisplayMs := none

/-- Table holding just `rowW`. -/
def dbW5 : DB := { rows := [rowW], nextId := 2 }

/-- A latency body supplying only `submitToServerMs`. -/
def bodyW5 : LatencyBody where
  submitToServerMs := some 40
  serverToDisplayMs := none
  submitToDisplayMs := none

/-- A latency body supplying none of the three fields. -/
def emptyBodyW : LatencyBody where
  submitToServerMs := none
  serverToDisplayMs := none
  submitToDisplayMs := none

/-- Concrete run of `latency_validation`: unparseable id, id 0, malformed
body and empty body are all rejected leaving the table untouched, and the
one-field update goes through with 200. -/
theorem latency_validation_witness :
    latencyHandler dbW5 none (some bodyW5) true = (dbW5, .badRequest) ∧
    latencyHandler dbW5 (some 0) (some bodyW5) true = (dbW5, .badRequest) ∧
    latencyHandler dbW5 (some 1) none true = (dbW5, .badRequest) ∧
    latencyHandler dbW5 (some 1) (some emptyBodyW) true = (dbW5, .badRequest) ∧
    latencyHandler dbW5 (some 1) (some bodyW5) true =
      ({ dbW5 with rows := dbW5.rows.map (fun r =>
          if r.id = 1 then applyLatency bodyW5 r else r) }, .ok) := by
  refine ⟨?_, ?_, ?_, ?_, ?_⟩
  · exact (latency_validation dbW5 none (some bodyW5) true).1 rfl
  · exact (latency_validation dbW5 (some 0) (some bodyW5) true).2.1 0 rfl
      (by decide)
  · exact (latency_validation dbW5 (some 1) none true).2.2.1 1 rfl (by decide)
      rfl
  · exact (latency_validation dbW5 (some 1) (some emptyBodyW) true).2.2.2.1 1
      emptyBodyW rfl (by decide) rfl (by decide)
  · exact (latency_validation dbW5 (some 1) (some bodyW5) true).2.2.2.2 1
      bodyW5 rfl (by decide) rfl (by decide)

/-- **C6.** A successful latency update touches only the targeted row and,
on that row, only the supplied fields: the resulting table is the row-wise
image of the old one; any row with a different id passes through
unchanged; `applyLatency` never changes the non-latency columns; each
latency column keeps its old value when its field is absent and takes the
supplied value when present. -/
theorem latency_partial_update_frame (db : DB) (id : Int) (b : LatencyBody)
    (hid : 0 < id) (hne : ¬ emptyLatencyBody b) :
    (latencyHandler db (some id) (some b) true).1.rows =
      db.rows.map (fun r => if r.id = id then applyLatency b r else r) ∧
    (∀ r : Row, r.id ≠ id → (if r.id = id then applyLatency b r else r) = r) ∧
    (∀ r : Row,
      (applyLatency b r).id = r.id ∧
      (applyLatency b r).name = r.name ∧
      (applyLatency b r).email = r.email ∧
      (applyLatency b r).message = r.message ∧
      (applyLatency b r).timestamp = r.timestamp ∧
      (applyLatency b r).clientSubmitAtMs = r.clientSubmitAtMs ∧
      (applyLatency b r).serverBroadcastAtMs = r.serverBroadcastAtMs) ∧
    (∀ r : Row,
      (b.submitToServerMs = none →
        (applyLatency b r).clientSubmitToServerMs = r.clientSubmitToServerMs) ∧
      (∀ v, b.submitToServerMs = some v →
        (applyLatency b r).clientSubmitToServerMs = some v) ∧
      (b.serverToDisplayMs = none →
        (applyLatency b r).clientServerToDisplayMs = r.clientServerToDisplayMs) ∧
      (∀ v, b.serverToDisplayMs = some v →
        (applyLatency b r).clientServerToDisplayMs = some v) ∧
      (b.submitToDisplayMs = none →
        (applyLatency b r).clientSubmitToDisplayMs = r.clientSubmitToDisplayMs) ∧
      (∀ v, b.submitToDisplayMs = some v →
        (applyLatency b r).clientSubmitToDisplayMs = some v)) := by
  refine ⟨?_, ?_, ?_, ?_⟩
  · rw [latencyHandler_good db id b hid hne]
  · intro r hr
    rw [if_neg hr]
  · intro r
    refine ⟨rfl, rfl, rfl, rfl, rfl, rfl, rfl⟩
  · intro r
    refine ⟨?_, ?_, ?_, ?_, ?_, ?_⟩
    · intro h
      simp [applyLatency, h]
    · intro v h
      simp [applyLatency, h]
    · intro h
      simp [applyLatency, h]
    · intro v h
      simp [applyLatency, h]
    · intro h
      simp [applyLatency, h]
    · intro v h
      simp [applyLatency, h]

/-- Concrete run of `latency_partial_update_frame` on `dbW5`: updating
only `submitToServerMs` of row 1 sets that column to 40 and leaves every
other column of the row as it was. -/
theorem latency_partial_update_frame_witness :
    (latencyHandler dbW5 (some 1) (some bodyW5) true).1.rows =
      [{ rowW with clientSubmitToServerMs := some 40 }] ∧
    (applyLatency bodyW5 rowW).clientServerToDisplayMs = some 5 ∧
    (applyLatency bodyW5 rowW).clientSubmitToDisplayMs = none ∧
    (applyLatency bodyW5 rowW).name = "A" ∧
    (applyLatency bodyW5 rowW).serverBroadcastAtMs = some 2000 := by
  have h := latency_partial_update_frame dbW5 1 bodyW5 (by decide) (by decide)
  refine ⟨?_, ?_, ?_, ?_, ?_⟩
  · rw [h.1]
    rfl
  · exact (h.2.2.2 rowW).2.2.1 rfl
  · exact (h.2.2.2 rowW).2.2.2.2.1 rfl
  · exact (h.2.2.1 rowW).2.1
  · exact (h.2.2.1 rowW).2.2.2.2.2.2

/-- **C10.** A latency update with a positive, well-formed id that matches
no stored row, and at least one field supplied, reports success: the
UPDATE matches zero rows, `db.Exec` returns no error, the handler replies
200 and no row is modified. -/
theorem latency_unknown_id_reports_ok (db : DB) (id : Int) (b : LatencyBody)
    (hid : 0 < id) (hne : ¬ emptyLatencyBody b)
    (habsent : ∀ r ∈ db.rows, r.id ≠ id) :
    latencyHandler db (some id) (some b) true = (db, .ok) := by
  rw [latencyHandler_good db id b hid hne]
  have hmap : ∀ r ∈ db.rows,
      (if r.id = id then applyLatency b r else r) = r := by
    intro r hr
    rw [if_neg (habsent r hr)]
  rw [List.map_congr_left hmap]
  simp

/-- Concrete run of `latency_unknown_id_reports_ok`: id 99 matches no row
of `dbW5`, yet the reply is 200 and the table is untouched. -/
theorem latency_unknown_id_reports_ok_witness :
    latencyHandler dbW5 (some 99) (some bodyW5) true = (dbW5, .ok) :=
  latency_unknown_id_reports_ok dbW5 99 bodyW5 (by decide) (by decide)
    (by decide)

/-! ## Recent-records limit handling (lines 189-196 and 299-306) -/

/-- The documented maximum of the `limit` query parameter
(`v <= 200` in both handlers). -/
def maxLimit : Int := 200

/-- The default limit of `GET /api/leads` (`limit := 20`). -/
def leadsDefaultLimit : Int := 20

/-- The default limit of `GET /api/submit-form` (`limit := 10`). -/
def recentDefaultLimit : Int := 10

/-- The limit both recent-records handlers actually use:
`limit := dflt; if l := c.Query("limit"); l != "" { if v, err :=
strconv.Atoi(l); err == nil && v > 0 && v <= 200 { limit = v } }`.
`parsed = none` models an absent or unparseable parameter. -/
def effectiveLimit (dflt : Int) (parsed : Option Int) : Int :=
  match parsed with
  | none => dflt
  | some v => if 0 < v ∧ v ≤ maxLimit then v else dflt

/-- **C7 counterexample.** A requested limit of 500 is NOT clamped to the
documented maximum 200: both handlers fall back to their defaults (20
for `/api/leads`, 10 for `GET /api/submit-form`) instead. -/
theorem limit_500_not_clamped_to_max :
    effectiveLimit leadsDefaultLimit (some 500) = 20 ∧
    effectiveLimit recentDefaultLimit (some 500) = 10 ∧
    effectiveLimit leadsDefaultLimit (some 500) ≠ maxLimit ∧
    effectiveLimit recentDefaultLimit (some 500) ≠ maxLimit := by
  refine ⟨rfl, rfl, ?_, ?_⟩
  · intro h
    exact absurd h (by decide)
  · intro h
    exact absurd h (by decide)

/-- **C7 amended.** A requested limit of 0 or a negative number is
replaced by the handler's default; a requested limit above the documented
maximum 200 is likewise replaced by the default (not clamped to 200); a
limit between 1 and 200 is honoured as requested. -/
theorem limit_out_of_range_replaced_by_default (v : Int) :
    (v ≤ 0 →
      effectiveLimit leadsDefaultLimit (some v) = leadsDefaultLimit ∧
      effectiveLimit recentDefaultLimit (some v) = recentDefaultLimit) ∧
    (maxLimit < v →
      effectiveLimit leadsDefaultLimit (some v) = leadsDefaultLimit ∧
      effectiveLimit recentDefaultLimit (some v) = recentDefaultLimit) ∧
    (0 < v → v ≤ maxLimit →
      effectiveLimit leadsDefaultLimit (some v) = v ∧
      effectiveLimit recentDefaultLimit (some v) = v) := by
  refine ⟨?_, ?_, ?_⟩
  · intro h
    constructor <;> simp [effectiveLimit, show ¬ (0 < v ∧ v ≤ maxLimit) by omega]
  · intro h
    constructor <;> simp [effectiveLimit, show ¬ (0 < v ∧ v ≤ maxLimit) by
      unfold maxLimit at h ⊢
      omega]
  · intro h1 h2
    constructor <;> simp [effectiveLimit, h1, h2]

/-- Concrete run of `limit_out_of_range_replaced_by_default` at the
requested limits 0, -3, 500 and 50. -/
theorem limit_out_of_range_witness :
    effectiveLimit leadsDefaultLimit (some 0) = 20 ∧
    effectiveLimit leadsDefaultLimit (some (-3)) = 20 ∧
    effectiveLimit recentDefaultLimit (some 500) = 10 ∧
    effectiveLimit leadsDefaultLimit (some 50) = 50 := by
  refine ⟨?_, ?_, ?_, ?_⟩
  · exact ((limit_out_of_range_replaced_by_default 0).1 (by decide)).1
  · exact ((limit_out_of_range_replaced_by_default (-3)).1 (by decide)).1
  · exact ((limit_out_of_range_replaced_by_default 500).2.1 (by decide)).2
  · exact ((limit_out_of_range_replaced_by_default 50).2.2 (by decide)
      (by decide)).1
